import Mathlib

/-!
Shallow embedding of `vrx::WaypointMarkers` (src/vrx_ign/src/WaypointMarkers.hh).

Only the header is present in the repository sources; it declares the class,
its two `DrawMarker` overloads, `Load`, and the private fields (lines 81-97),
and documents the configuration defaults (lines 32-39).  The method bodies
live in a translation unit that is not part of the sources, so they are
modelled from the specification's description of each operation; every such
definition carries a doc comment starting `Modelled from the spec:`.

The component performs no arithmetic on its floating-point data (coordinates,
yaw, scaling, height): those values are only stored and copied into outbound
messages, so the embedding carries them as exact rationals.  The auto-id
counter is declared `int` (header line 94) and is embedded as a
32-bit two's-complement integer: an unbounded `Int` value kept in
[-2^31, 2^31) by wrapping on increment.
-/

/-- Embedding of the ignition math 3-vector of doubles as used here: a record of
three components.  No arithmetic is performed on it by this component. -/
structure Vec3 where
  x : Rat
  y : Rat
  z : Rat
deriving DecidableEq

/-- Largest value of the C++ `int` used for the marker-id counter. -/
def intMax : Int := 2147483647

/-- Smallest value of the C++ `int` used for the marker-id counter. -/
def intMin : Int := -2147483648

/-- Two's-complement wrap of an unbounded integer into the range of a 32-bit
signed `int`, the semantics of incrementing the `int` counter past `intMax`. -/
def wrap32 (n : Int) : Int :=
  (n + 2147483648) % 4294967296 - 2147483648

/-- The instance state of `vrx::WaypointMarkers` (header lines 81-94): the
marker namespace `ns`, the material name, the scaling vector, the height above
water, and the auto-id counter `id`.  The transport node (line 97) holds no
state observable through this component and is modelled separately as the
publish oracle `Transport`. -/
structure WaypointMarkers where
  ns : String
  material : String
  scaling : Vec3
  height : Rat
  id : Int
deriving DecidableEq

/-- Modelled from the spec: the constructor body is not in the sources.  The
header declares `WaypointMarkers(const std::string &_namespace)` (line 51) and
documents the defaults `Gazebo/Green` for material and `0.2 0.2 1.5` for
scaling (lines 33-36); `id = 0` is the in-class initializer on line 94; the
spec's configuration table gives `height` the default `0.0`.  "Construction:
takes a namespace string; initializes material/scale/height to fixed defaults
and id to zero." -/
def WaypointMarkers.construct (n : String) : WaypointMarkers :=
  { ns := n
  , material := "Gazebo/Green"
  , scaling := { x := 0.2, y := 0.2, z := 1.5 }
  , height := 0
  , id := 0 }

/-- The marker-related content of the SDF configuration element handed to
`Load`: the four optional fields the component reads (header doc lines 32-39),
each present with a value or absent. -/
structure SdfElement where
  material : Option String
  scaling : Option Vec3
  height : Option Rat
  initial_id : Option Int
deriving DecidableEq

/-- The SDF element with none of the marker-related fields present. -/
def SdfElement.empty : SdfElement :=
  { material := none, scaling := none, height := none, initial_id := none }

/-- Modelled from the spec: the body of `WaypointMarkers::Load` (declared at
header line 55) is not in the sources.  "Load(config): reads optional material,
scale, height, and initial-id fields from a structured configuration tree; any
field absent from the tree retains its default; ... fails silently (keeps
defaults) if fields are missing."  Each present field overwrites the
corresponding instance field; nothing else is touched. -/
def WaypointMarkers.Load (m : WaypointMarkers) (sdf : SdfElement) :
    WaypointMarkers :=
  { m with
    material := sdf.material.getD m.material
    scaling := sdf.scaling.getD m.scaling
    height := sdf.height.getD m.height
    id := sdf.initial_id.getD m.id }

/-- The caller-visible effect of one `Load` call: the updated instance paired
with the configuration tree as the caller sees it after the call.  `Load`
receives the tree as `const std::shared_ptr<const sdf::Element> &` (header
line 55), a pointer to a const element, so the call hands the tree back
unmodified. -/
def WaypointMarkers.LoadCall (m : WaypointMarkers) (sdf : SdfElement) :
    WaypointMarkers × SdfElement :=
  (m.Load sdf, sdf)

/-- Geometry type carried by an outbound marker message; this component only
ever emits cylinders. -/
inductive Geometry where
  | cylinder
deriving DecidableEq

/-- One outbound marker message.  Modelled from the spec: the wire schema is
owned by the external simulator; the spec states the message "carries
namespace, id, position, orientation (yaw), geometry type (cylinder),
material, scale, height offset, and optional text label". -/
structure Marker where
  ns : String
  id : Int
  x : Rat
  y : Rat
  yaw : Rat
  geometry : Geometry
  material : String
  scale : Vec3
  height : Rat
  text : String
deriving DecidableEq

/-- Modelled from the spec: the transport bus behind the node of header
line 97.  Whether a given publish succeeds is decided outside this component,
so the bus is an oracle mapping each message to a success flag; the component
adds "no retries, no backpressure, no failure recovery beyond returning a
boolean success flag from the underlying publish call". -/
structure Transport where
  publish : Marker → Bool

/-- Modelled from the spec: the message built by a draw call, "a marker
message (cylinder geometry, given position/orientation, configured
material/scale/height offset, optional text label) tagged with the given id
and the instance's namespace". -/
def WaypointMarkers.buildMarker (m : WaypointMarkers) (markerId : Int)
    (x y yaw : Rat) (text : String) : Marker :=
  { ns := m.ns
  , id := markerId
  , x := x
  , y := y
  , yaw := yaw
  , geometry := Geometry.cylinder
  , material := m.material
  , scale := m.scaling
  , height := m.height
  , text := text }

/-- The full outcome of one draw call: the boolean the call returns, the
instance state after the call, and the messages published on the bus by the
call, in order. -/
structure DrawOutcome where
  ok : Bool
  state : WaypointMarkers
  sent : List Marker

/-- Modelled from the spec: the explicit-id `DrawMarker` overload (declared at
header lines 64-68).  It builds the marker message, publishes it — "one
message per draw call" — and "returns whether publication succeeded";
it writes no field of the instance. -/
def WaypointMarkers.drawMarkerAt (m : WaypointMarkers) (t : Transport)
    (markerId : Int) (x y yaw : Rat) (text : String) : DrawOutcome :=
  let msg := m.buildMarker markerId x y yaw text
  { ok := t.publish msg, state := m, sent := [msg] }

/-- Modelled from the spec: the auto-id `DrawMarker` overload (declared at
header lines 76-79): "same as above but auto-assigns the next id from the
internal counter, then increments the counter."  The counter is the C++ `int`
of header line 94, so the increment is two's-complement: `wrap32`. -/
def WaypointMarkers.drawMarkerAuto (m : WaypointMarkers) (t : Transport)
    (x y yaw : Rat) (text : String) : DrawOutcome :=
  let r := m.drawMarkerAt t m.id x y yaw text
  { r with state := { r.state with id := wrap32 (m.id + 1) } }

/-- The arguments of one auto-id draw call. -/
structure AutoArgs where
  x : Rat
  y : Rat
  yaw : Rat
  text : String

/-- Runs a sequence of auto-id draw calls from a given instance state,
returning the final state and every message published, in order. -/
def runAuto (t : Transport) : WaypointMarkers → List AutoArgs →
    WaypointMarkers × List Marker
  | m, [] => (m, [])
  | m, a :: rest =>
      let r := m.drawMarkerAuto t a.x a.y a.yaw a.text
      let p := runAuto t r.state rest
      (p.1, r.sent ++ p.2)

/-- A transport oracle on which every publish succeeds, used for concrete
test states. -/
def allOkBus : Transport :=
  { publish := fun _ => true }

/-- Concrete arguments for an auto-id draw call at the origin with no text. -/
def argsZero : AutoArgs :=
  { x := 0, y := 0, yaw := 0, text := "" }

/-- C2: for every instance state and arguments, the explicit-id `DrawMarker`
overload leaves the internal auto-id counter unchanged: the counter after the
call equals the counter before the call. -/
theorem explicit_id_draw_preserves_counter (m : WaypointMarkers)
    (t : Transport) (markerId : Int) (x y yaw : Rat) (text : String) :
    (m.drawMarkerAt t markerId x y yaw text).state.id = m.id :=
  rfl

/-- C3: for every draw call of either overload, the single outbound message
carries exactly the coordinates, yaw and text passed in, together with the
instance's currently configured namespace, material, scaling, height offset
and cylinder geometry; the explicit-id overload tags it with the given id and
the auto-id overload with the current counter. -/
theorem draw_message_carries_arguments (m : WaypointMarkers) (t : Transport)
    (markerId : Int) (x y yaw : Rat) (text : String) :
    (m.drawMarkerAt t markerId x y yaw text).sent =
      [{ ns := m.ns, id := markerId, x := x, y := y, yaw := yaw
       , geometry := Geometry.cylinder, material := m.material
       , scale := m.scaling, height := m.height, text := text }] ∧
    (m.drawMarkerAuto t x y yaw text).sent =
      [{ ns := m.ns, id := m.id, x := x, y := y, yaw := yaw
       , geometry := Geometry.cylinder, material := m.material
       , scale := m.scaling, height := m.height, text := text }] :=
  ⟨rfl, rfl⟩

/-- C4: constructing a `WaypointMarkers` from a namespace string yields the
material `Gazebo/Green`, the scaling (0.2, 0.2, 1.5), height 0, and an auto-id
counter of zero. -/
theorem construct_defaults (n : String) :
    (WaypointMarkers.construct n).material = "Gazebo/Green" ∧
    (WaypointMarkers.construct n).scaling = { x := 0.2, y := 0.2, z := 1.5 } ∧
    (WaypointMarkers.construct n).height = 0 ∧
    (WaypointMarkers.construct n).id = 0 :=
  ⟨rfl, rfl, rfl, rfl⟩

/-- C7: for every draw call of either overload, the boolean result is true if
and only if the bus publish of the built message succeeded; the result is
exactly the publish flag, so publish failure is the only failure mode the
call exposes. -/
theorem draw_result_iff_publish (m : WaypointMarkers) (t : Transport)
    (markerId : Int) (x y yaw : Rat) (text : String) :
    ((m.drawMarkerAt t markerId x y yaw text).ok = true ↔
      t.publish (m.buildMarker markerId x y yaw text) = true) ∧
    ((m.drawMarkerAuto t x y yaw text).ok = true ↔
      t.publish (m.buildMarker m.id x y yaw text) = true) :=
  ⟨Iff.rfl, Iff.rfl⟩

/-- C8: no public operation changes the namespace string after construction:
`Load` and both `DrawMarker` overloads leave `ns` unchanged, and the
constructor sets it to the given string. -/
theorem ns_fixed_after_construction (m : WaypointMarkers) (sdf : SdfElement)
    (t : Transport) (markerId : Int) (x y yaw : Rat) (text : String)
    (n : String) :
    (WaypointMarkers.construct n).ns = n ∧
    (m.Load sdf).ns = m.ns ∧
    (m.drawMarkerAt t markerId x y yaw text).state.ns = m.ns ∧
    (m.drawMarkerAuto t x y yaw text).state.ns = m.ns :=
  ⟨rfl, rfl, rfl, rfl⟩

/-- C9: `Load` receives the configuration tree through a pointer to a const
element, so every call hands the tree back to the caller unchanged. -/
theorem load_preserves_sdf (m : WaypointMarkers) (sdf : SdfElement) :
    (m.LoadCall sdf).2 = sdf :=
  rfl

/-- C5: `Load` is total (it never fails or signals an error); each of the
fields material, scaling, height, initial_id that is absent from the tree
leaves the corresponding property of a freshly constructed instance at its
documented default, and a tree with no marker-related fields leaves every
property at its default. -/
theorem load_missing_fields_keep_defaults (n : String) (sdf : SdfElement) :
    (sdf.material = none →
      ((WaypointMarkers.construct n).Load sdf).material = "Gazebo/Green") ∧
    (sdf.scaling = none →
      ((WaypointMarkers.construct n).Load sdf).scaling =
        { x := 0.2, y := 0.2, z := 1.5 }) ∧
    (sdf.height = none →
      ((WaypointMarkers.construct n).Load sdf).height = 0) ∧
    (sdf.initial_id = none →
      ((WaypointMarkers.construct n).Load sdf).id = 0) ∧
    (WaypointMarkers.construct n).Load SdfElement.empty =
      WaypointMarkers.construct n := by
  refine ⟨fun h => ?_, fun h => ?_, fun h => ?_, fun h => ?_, rfl⟩ <;>
    simp [WaypointMarkers.Load, WaypointMarkers.construct, h]

/-- Witness for C5 at a concrete input: an element carrying none of the four
fields leaves a freshly constructed instance entirely at its defaults. -/
theorem load_missing_fields_keep_defaults_witness :
    ((WaypointMarkers.construct "waypoint_marker").Load
        SdfElement.empty).material = "Gazebo/Green" ∧
    ((WaypointMarkers.construct "waypoint_marker").Load
        SdfElement.empty).height = 0 ∧
    ((WaypointMarkers.construct "waypoint_marker").Load
        SdfElement.empty).id = 0 := by
  have h := load_missing_fields_keep_defaults "waypoint_marker"
    SdfElement.empty
  exact ⟨h.1 rfl, h.2.2.1 rfl, h.2.2.2.1 rfl⟩

/-- C6: on a tree supplying all four of material, scaling, height and
initial_id, `Load` sets exactly those four instance fields to the supplied
values and changes nothing else; in particular the namespace is unchanged. -/
theorem load_explicit_fields_override (m : WaypointMarkers) (sdf : SdfElement)
    (mat : String) (sc : Vec3) (ht : Rat) (i0 : Int)
    (hm : sdf.material = some mat) (hs : sdf.scaling = some sc)
    (hh : sdf.height = some ht) (hi : sdf.initial_id = some i0) :
    m.Load sdf =
      { ns := m.ns, material := mat, scaling := sc, height := ht, id := i0 } := by
  simp [WaypointMarkers.Load, hm, hs, hh, hi]

/-- Witness for C6 at a concrete input: a fully populated element overrides
the four configured fields of a freshly constructed instance and keeps its
namespace. -/
theorem load_explicit_fields_override_witness :
    (WaypointMarkers.construct "wp").Load
        { material := some "Gazebo/Red"
        , scaling := some { x := 1, y := 1, z := 2 }
        , height := some 5
        , initial_id := some 42 } =
      { ns := "wp", material := "Gazebo/Red"
      , scaling := { x := 1, y := 1, z := 2 }, height := 5, id := 42 } :=
  load_explicit_fields_override (WaypointMarkers.construct "wp")
    { material := some "Gazebo/Red"
    , scaling := some { x := 1, y := 1, z := 2 }
    , height := some 5
    , initial_id := some 42 }
    "Gazebo/Red" { x := 1, y := 1, z := 2 } 5 42 rfl rfl rfl rfl

/-- An instance configured with initial_id intMax, the largest value the
`int` counter can hold. -/
def markersAtIntMax : WaypointMarkers :=
  (WaypointMarkers.construct "wp").Load
    { material := none, scaling := none, height := none
    , initial_id := some intMax }

/-- An instance configured with initial_id 5. -/
def markersAtFive : WaypointMarkers :=
  (WaypointMarkers.construct "wp").Load
    { material := none, scaling := none, height := none
    , initial_id := some 5 }

/-- A concrete three-call argument sequence for the auto-id overload. -/
def threeCalls : List AutoArgs :=
  [argsZero, argsZero, argsZero]

/-- Incrementing a counter value that is strictly below `intMax` does not
wrap: the two's-complement increment agrees with the mathematical one. -/
theorem wrap32_eq_of_below_max (n : Int) (hlo : intMin ≤ n)
    (hhi : n < intMax) : wrap32 (n + 1) = n + 1 := by
  simp only [wrap32, intMin, intMax] at *
  omega

/-- Closed instance of `wrap32_eq_of_below_max` at a concrete counter
value. -/
theorem wrap32_eq_of_below_max_witness : wrap32 (5 + 1) = 5 + 1 :=
  wrap32_eq_of_below_max 5 (by decide) (by decide)

/-- C10: the auto-id counter is a 32-bit signed machine integer, so the
per-call increment is increment modulo the int width: with the counter
configured at intMax, the auto-id call publishes id intMax and the next call
publishes id intMin — the id wraps around rather than strictly increasing. -/
theorem counter_wraps_at_int_max :
    (runAuto allOkBus markersAtIntMax [argsZero, argsZero]).2.map Marker.id =
      [intMax, intMin] ∧
    intMin < intMax := by
  decide

/-- C1 fails as stated: with the configured initial id at intMax, two auto-id
draw calls publish the ids [intMax, intMin], not the contiguous increasing
ids [intMax, intMax + 1] the claim requires. -/
theorem auto_ids_contiguous_counterexample :
    (runAuto allOkBus markersAtIntMax [argsZero, argsZero]).2.map Marker.id =
      [intMax, intMin] ∧
    (runAuto allOkBus markersAtIntMax [argsZero, argsZero]).2.map Marker.id ≠
      [intMax, intMax + 1] := by
  constructor
  · decide
  · decide

/-- C1 (amended): starting from any instance whose counter k is a valid
`int` value, if the run of N auto-id draw calls never pushes the counter past
intMax (k + N ≤ intMax), then the calls publish exactly N messages whose ids
are exactly k, k + 1, ..., k + N - 1, and the counter ends at k + N: each
call uses the current counter as the marker id and then increments the
counter by one. -/
theorem auto_ids_contiguous (t : Transport) (args : List AutoArgs)
    (m : WaypointMarkers) (hlo : intMin ≤ m.id)
    (hhi : m.id + args.length ≤ intMax) :
    (runAuto t m args).2.map Marker.id =
      (List.range args.length).map (fun (i : Nat) => m.id + (i : Int)) ∧
    (runAuto t m args).1.id = m.id + args.length := by
  induction args generalizing m with
  | nil => simp [runAuto]
  | cons a rest ih =>
    have hlen : ((a :: rest).length : Int) = (rest.length : Int) + 1 := by
      push_cast [List.length_cons]
      ring
    rw [hlen] at hhi
    have hnn : (0 : Int) ≤ (rest.length : Int) := Int.natCast_nonneg _
    have hlt : m.id < intMax := by
      simp only [intMin, intMax] at hlo hhi ⊢
      omega
    have hwrap : wrap32 (m.id + 1) = m.id + 1 :=
      wrap32_eq_of_below_max m.id hlo hlt
    have hstep :
        runAuto t m (a :: rest) =
          ((runAuto t { m with id := m.id + 1 } rest).1,
            m.buildMarker m.id a.x a.y a.yaw a.text ::
              (runAuto t { m with id := m.id + 1 } rest).2) := by
      simp [runAuto, WaypointMarkers.drawMarkerAuto,
        WaypointMarkers.drawMarkerAt, hwrap]
    have hlo2 : intMin ≤ ({ m with id := m.id + 1 } : WaypointMarkers).id := by
      simp only [intMin, intMax] at hlo ⊢
      omega
    have hhi2 :
        ({ m with id := m.id + 1 } : WaypointMarkers).id +
          (rest.length : Int) ≤ intMax := by
      simp only [intMin, intMax] at hhi ⊢
      omega
    obtain ⟨hids, hid⟩ := ih { m with id := m.id + 1 } hlo2 hhi2
    constructor
    · rw [hstep]
      simp only [List.map_cons, hids, List.length_cons,
        List.range_succ_eq_map, List.map_map]
      congr 1
      · simp [WaypointMarkers.buildMarker]
      · have hf : ((fun (i : Nat) => m.id + (i : Int)) ∘ Nat.succ) =
            fun (i : Nat) => m.id + 1 + (i : Int) := by
          funext i
          simp only [Function.comp, Nat.succ_eq_add_one]
          push_cast
          ring
        rw [hf]
    · rw [hstep]
      simp only at hid
      rw [hid, hlen]
      ring

/-- Witness for the amended C1 at a concrete input: from a counter configured
to 5, three auto-id calls publish ids 5, 6, 7 and leave the counter at 8. -/
theorem auto_ids_contiguous_witness :
    (runAuto allOkBus markersAtFive threeCalls).2.map Marker.id =
      (List.range threeCalls.length).map
        (fun (i : Nat) => markersAtFive.id + (i : Int)) ∧
    (runAuto allOkBus markersAtFive threeCalls).1.id =
      markersAtFive.id + threeCalls.length :=
  auto_ids_contiguous allOkBus threeCalls markersAtFive (by decide) (by decide)
